import Mathlib

/-!
Shallow embedding of `deploy_kit/subprocess_utils.py` (the command-execution
and progress-reporting layer of the deployment kit) and proofs about it.

Modelling conventions:
* Python strings are Lean `String`s; machine text operations
  (`str.split()`, `str.strip()`, `" ".join`, `textwrap.shorten`) are
  re-defined below following their CPython semantics on the whitespace
  characters recognised by `Char.isWhitespace`.
* Python floats that carry durations (timeouts, idle thresholds, refresh
  intervals, monotonic clock readings) are modelled as rationals `ℚ`;
  `f"{x:0.1f}"` rounding is modelled as round-half-up at one decimal digit.
* The child process and the thread scheduler are modelled by explicit data:
  a `ProcBehavior` describing what the child would do, and a list of
  `Tick`s describing the moments the progress-indicator thread wakes up
  together with the last-activity timestamp it observes at that moment.
* Exceptions are values: a `PyException` records the Python exception class
  name and its message; `run_command` returns `Except PyException RunResult`
  inside a `RunTrace` that also records the kill flag, the resolved progress
  settings, and everything the indicator wrote to the error stream.
-/

/-! ## Python string primitives used by the source -/

/-- Split a character list into maximal runs of non-whitespace characters,
dropping all whitespace: the core of Python's no-argument `str.split()`.
The accumulator holds the current word reversed. -/
def pySplitWsAux : List Char → List Char → List (List Char)
  | [], [] => []
  | [], acc => [acc.reverse]
  | c :: cs, acc =>
    if c.isWhitespace then
      match acc with
      | [] => pySplitWsAux cs []
      | _ => acc.reverse :: pySplitWsAux cs []
    else pySplitWsAux cs (c :: acc)

/-- Python `s.split()` (no separator): whitespace-separated words, empties dropped. -/
def pyWords (s : String) : List String :=
  (pySplitWsAux s.data []).map (fun cs => ⟨cs⟩)

/-- Python `" ".join(ws)`: join with single spaces (keeps empty elements). -/
def joinWords : List String → String
  | [] => ""
  | [w] => w
  | w :: ws => w ++ " " ++ joinWords ws

/-- Python `s.strip()`: drop leading and trailing whitespace. -/
def pyStrip (s : String) : String :=
  ⟨((s.data.dropWhile Char.isWhitespace).reverse.dropWhile Char.isWhitespace).reverse⟩

/-- Python `s.lower()`, modelled character by character (`Char.toLower`
handles the ASCII range, which is all the style comparison below needs). -/
def pyLower (s : String) : String :=
  ⟨s.data.map Char.toLower⟩

/-- Python `s.lstrip()`: drop leading whitespace only. -/
def pyLStrip (s : String) : String :=
  ⟨s.data.dropWhile Char.isWhitespace⟩

/-- Whitespace-collapsed text: the first step of `textwrap.shorten`,
`' '.join(text.split())`. -/
def pyNormalize (s : String) : String :=
  joinWords (pyWords s)

/-- Greedy word fitting used by `textwrap.shorten`'s truncation: keep the
longest prefix of words such that each kept word `w` consumes
`w.length + 1` characters (its joining space) from the budget. -/
def fitWords : List String → Nat → List String
  | [], _ => []
  | w :: ws, budget =>
    if w.length + 1 ≤ budget then w :: fitWords ws (budget - (w.length + 1))
    else []

/-- Model of Python `textwrap.shorten(text, width, placeholder=ph)`:
collapse whitespace; if the collapsed text fits in `width` return it whole,
otherwise drop words from the end so that the kept words followed by the
placeholder fit in `width` (the kept words `ws` satisfy
`(joinWords ws).length + ph.length ≤ width`); if no word fits, the result is
the placeholder stripped of leading whitespace. -/
def textwrap_shorten (s : String) (width : Nat) (ph : String) : String :=
  let norm := pyNormalize s
  if norm.length ≤ width then norm
  else
    let kept := fitWords (pyWords s) (width + 1 - ph.length)
    if kept = [] then pyLStrip ph else joinWords kept ++ ph

/-! ## Frame sets, frame selection, elapsed-time formatting
(`subprocess_utils.py` lines 97–113) -/

def _BRAILLE_FRAMES : List String := ["⠋", "⠙", "⠹", "⠸", "⠼", "⠴", "⠦", "⠧", "⠇", "⠏"]

def _ASCII_FRAMES : List String := ["|", "/", "-", "\\"]

/-- `_select_frames(style)`: lowercase the stripped style; `"ascii"` selects
the ASCII frames, everything else the braille frames. -/
def _select_frames (style : String) : List String :=
  let s := pyLower (pyStrip style)
  if s = "ascii" then _ASCII_FRAMES else _BRAILLE_FRAMES

/-- Two-digit zero padding, Python `f"{n:02d}"` for `n ≥ 0`. -/
def pad2 (n : Nat) : String :=
  if n < 10 then "0" ++ toString n else toString n

/-- `_format_elapsed(seconds)`. The Python source formats a float with
`f"{seconds:0.1f}s"` below 60 seconds and as `f"{minutes}m{sec:02d}s"` from
60 seconds on; the one-decimal float formatting is modelled as rounding to
tenths half-up. -/
def _format_elapsed (seconds : ℚ) : String :=
  if seconds < 60 then
    let t : Nat := (Rat.floor (seconds * 10 + 1 / 2)).toNat
    toString (t / 10) ++ "." ++ toString (t % 10) ++ "s"
  else
    let s : Nat := (Rat.floor seconds).toNat
    toString (s / 60) ++ "m" ++ pad2 (s % 60) ++ "s"

/-- `_default_progress_message(cmd)`: `shorten(" ".join(cmd), width=72,
placeholder="…")`. -/
def _default_progress_message (cmd : List String) : String :=
  textwrap_shorten (joinWords cmd) 72 "…"

/-! ## Environment-variable parsing and progress-settings resolution
(`subprocess_utils.py` lines 22–94, 286–313) -/

/-- Accumulate a decimal digit string into a natural number; `none` when a
non-digit appears. -/
def digitsValAux : List Char → Nat → Option Nat
  | [], acc => some acc
  | c :: cs, acc =>
    if c.isDigit then digitsValAux cs (acc * 10 + (c.toNat - 48)) else none

/-- Value of a nonempty all-digit character list. -/
def digitsVal? (cs : List Char) : Option Nat :=
  if cs = [] then none else digitsValAux cs 0

/-- Model of Python `float(raw)` restricted to plain decimal literals
(optional sign, integer digits, optional fractional digits, at least one
digit overall, surrounding whitespace allowed); other inputs — which the
source would also reject or which do not occur in this configuration
surface — yield `none`. -/
def splitOnDotAux : List Char → List Char → List (List Char)
  | [], acc => [acc.reverse]
  | c :: cs, acc =>
    if c = '.' then acc.reverse :: splitOnDotAux cs []
    else splitOnDotAux cs (c :: acc)

/-- Split a character list at every dot, keeping empty pieces. -/
def splitOnDot (cs : List Char) : List (List Char) :=
  splitOnDotAux cs []

def pyFloat? (raw : String) : Option ℚ :=
  let s := pyStrip raw
  let sgn : ℚ := if s.data.head? = some '-' then -1 else 1
  let body : List Char :=
    if s.data.head? = some '-' ∨ s.data.head? = some '+' then s.data.tail else s.data
  match splitOnDot body with
  | [ip] => (digitsVal? ip).map (fun n => sgn * n)
  | [ip, fp] =>
    if ip = [] ∧ fp = [] then none
    else
      match (if ip = [] then some 0 else digitsVal? ip),
            (if fp = [] then some 0 else digitsVal? fp) with
      | some i, some f => some (sgn * ((i : ℚ) + (f : ℚ) / (10 : ℚ) ^ fp.length))
      | _, _ => none
  | _ => none

/-- Ambient process environment: a lookup from variable name to value. -/
def Env : Type := String → Option String

/-- `_parse_env_bool(name)`: unset variable gives `none`; otherwise the
stripped, lowercased value is tested for membership in
`{"1","true","yes","y","on"}`. -/
def _parse_env_bool (env : Env) (name : String) : Option Bool :=
  match env name with
  | none => none
  | some raw => some (["1", "true", "yes", "y", "on"].contains (pyLower (pyStrip raw)))

/-- `_parse_env_float(name)`: unset or blank gives `none`; otherwise the
value is parsed as a float, unparsable values giving `none`. -/
def _parse_env_float (env : Env) (name : String) : Option ℚ :=
  match env name with
  | none => none
  | some raw => if pyStrip raw = "" then none else pyFloat? raw

/-- `_progress_settings_from_env()`: the four environment overrides
(show, idle seconds, style, interval). -/
def _progress_settings_from_env (env : Env) :
    Option Bool × Option ℚ × Option String × Option ℚ :=
  ( _parse_env_bool env "CLI_SHOW_PROGRESS",
    _parse_env_float env "CLI_PROGRESS_IDLE_SECONDS",
    env "CLI_PROGRESS_STYLE",
    _parse_env_float env "CLI_PROGRESS_INTERVAL_SECONDS" )

/-- Process-wide mutable defaults `_cli_show_progress`,
`_cli_progress_idle_seconds`, `_cli_progress_style`,
`_cli_progress_interval` (lines 22–26), snapshot at call time. -/
structure CliProgressGlobals where
  showProgress : Bool := true
  idleSeconds : ℚ := 2
  style : String := "braille"
  interval : ℚ := 12 / 100
deriving DecidableEq

/-- `_get_progress_defaults()`: the locked read of the four globals. -/
def _get_progress_defaults (g : CliProgressGlobals) : Bool × ℚ × String × ℚ :=
  (g.showProgress, g.idleSeconds, g.style, g.interval)

/-- The keyword arguments of `run_command`, with the source's default
values (notably `timeout: float | None = 900.0`). -/
structure CallArgs where
  cmd : List String
  cwd : Option String := none
  envOverlay : Option (List (String × String)) := none
  timeout : Option ℚ := some 900
  streamOutput : Bool := false
  spinnerMessage : Option String := none
  showProgress : Option Bool := none
  progressIdleSeconds : Option ℚ := none
  progressStyle : Option String := none
  progressInterval : Option ℚ := none

/-- The conditional-expression pattern of lines 290–309: the explicit call
argument wins, else the environment override, else the process default. -/
def resolveOpt {α : Type} (callArg envVal : Option α) (dflt : α) : α :=
  match callArg with
  | some v => v
  | none => match envVal with
    | some v => v
    | none => dflt

/-- The four effective progress settings of one `run_command` call. -/
structure ProgressSettings where
  showProgress : Bool
  idleSeconds : ℚ
  style : String
  interval : ℚ
deriving DecidableEq

/-- Lines 287–309: `effective_show`, `effective_idle`, `effective_style`,
`effective_interval`, computed once before the mode branch. -/
def resolveProgressSettings (args : CallArgs) (env : Env) (g : CliProgressGlobals) :
    ProgressSettings :=
  let d := _get_progress_defaults g
  let e := _progress_settings_from_env env
  { showProgress := resolveOpt args.showProgress e.1 d.1
    idleSeconds := resolveOpt args.progressIdleSeconds e.2.1 d.2.1
    style := resolveOpt args.progressStyle e.2.2.1 d.2.2.1
    interval := resolveOpt args.progressInterval e.2.2.2 d.2.2.2 }

/-! ## Idle progress indicator (`_ProgressLine`, `_IdleProgressIndicator`,
lines 120–208) -/

/-- Constructor state of `_IdleProgressIndicator`: message, style, and the
floored interval `max(interval, 0.02)` and idle threshold
`max(idle_seconds, 0.0)` (lines 161–163). -/
structure IndicatorConfig where
  message : String
  style : String
  interval : ℚ
  idleSeconds : ℚ
deriving DecidableEq

/-- Build the indicator configuration from the resolved settings, applying
the constructor's flooring. -/
def mkIndicatorConfig (message : String) (s : ProgressSettings) : IndicatorConfig :=
  { message := message
    style := s.style
    interval := max s.interval (1 / 50)
    idleSeconds := max s.idleSeconds 0 }

/-- `_ProgressLine.render`: the text drawn for frame index `idx` at the
given elapsed time, `f"{frame} {message}  {elapsed}"`, where the frame is
`frames[idx % len(frames)]`. -/
def renderText (cfg : IndicatorConfig) (idx : Nat) (elapsed : ℚ) : String :=
  let frames := _select_frames cfg.style
  (frames.getD (idx % frames.length) "") ++ " " ++ cfg.message ++ "  " ++ _format_elapsed elapsed

/-- `_ProgressLine.clear`: a carriage return, `lastLen` spaces and another
carriage return; nothing when no line was ever drawn (`_last_len <= 0`). -/
def clearWrite (lastLen : Nat) : List String :=
  if lastLen ≤ 0 then [] else ["\r" ++ (⟨List.replicate lastLen ' '⟩ : String) ++ "\r"]

/-- One wake of the indicator thread: the monotonic clock reading `now` and
the last-activity timestamp `last` it observes. -/
structure Tick where
  now : ℚ
  last : ℚ
deriving DecidableEq

/-- Mutable state of the indicator thread loop: next frame index, whether
the line is currently shown, the longest line drawn so far, and the writes
issued to the error stream so far (in order). -/
structure IndState where
  idx : Nat
  shown : Bool
  lastLen : Nat
  writes : List String
deriving DecidableEq

/-- One iteration of `_IdleProgressIndicator._run` (lines 178–194): when
`idle < idle_seconds` an existing line is cleared, otherwise a frame is
rendered, the frame index advances and the longest-line bookkeeping grows. -/
def indicatorStep (cfg : IndicatorConfig) (start : ℚ) (st : IndState) (tk : Tick) : IndState :=
  let idle := tk.now - tk.last
  if idle < cfg.idleSeconds then
    if st.shown then
      { st with shown := false, writes := st.writes ++ clearWrite st.lastLen }
    else st
  else
    let text := renderText cfg st.idx (tk.now - start)
    { idx := st.idx + 1
      shown := true
      lastLen := max st.lastLen text.length
      writes := st.writes ++ ["\r" ++ text] }

/-- `_IdleProgressIndicator.stop` (lines 204–208): after the loop ends, a
shown line is cleared so the terminal is left clean. -/
def indicatorStop (st : IndState) : IndState :=
  if st.shown then { st with shown := false, writes := st.writes ++ clearWrite st.lastLen }
  else st

/-- Everything the indicator thread writes to the error stream during one
`run_command` call, for a given wake schedule. -/
def indicatorRun (cfg : IndicatorConfig) (start : ℚ) (ticks : List Tick) : List String :=
  (indicatorStop (ticks.foldl (indicatorStep cfg start) ⟨0, false, 0, []⟩)).writes

/-! ## The command runner (`run_command`, lines 265–490) -/

/-- What the child process would do if spawned: whether the executable
exists, how long the child would run (seconds on the monotonic clock), its
exit code, its merged stdout+stderr stream (streaming mode) and its separate
captured stdout and stderr (quiet mode). -/
structure ProcBehavior where
  found : Bool
  runtime : ℚ
  exitCode : Int
  combinedOutput : String
  outText : String
  errText : String

/-- Ambient state of one call: the process environment, the snapshot of the
process-wide progress globals, whether `sys.stderr` is a tty, the child's
behavior and the indicator thread's wake schedule. -/
structure World where
  env : Env
  globals : CliProgressGlobals
  stderrIsTTY : Bool
  beh : ProcBehavior
  ticks : List Tick

/-- A raised Python exception: class name and message. -/
structure PyException where
  excType : String
  message : String
deriving DecidableEq

/-- The dataclass `RunResult` (lines 211–215). -/
structure RunResult where
  returncode : Int
  stdout : String
  stderr : String
deriving DecidableEq

/-- Observable outcome of one `run_command` call: the returned value or
raised exception, whether `proc.kill()` was invoked, the effective progress
settings of lines 290–309, the indicator configuration when one was
created, and the indicator's error-stream writes. -/
structure RunTrace where
  result : Except PyException RunResult
  killed : Bool
  resolvedSettings : ProgressSettings
  indicatorConfig : Option IndicatorConfig
  stderrWrites : List String

/-- Message of the `RuntimeError` raised on `FileNotFoundError`
(lines 328–330 and 470–472): names `cmd[0]` and hints at the tooling. -/
def notFoundMsg (cmd : List String) : String :=
  "필요한 명령을 찾을 수 없습니다: " ++ cmd.headD "" ++ " (gcloud/docker 가 설치되어 있는지 확인하세요)"

/-- Message of the `RuntimeError` raised on deadline expiry (lines 378–380,
415–417 and 474–476): the configured timeout and the joined command line. -/
def timeoutMsg (timeout : ℚ) (cmd : List String) : String :=
  "명령 실행이 " ++ toString timeout ++ "초 안에 끝나지 않았습니다: " ++ joinWords cmd

/-- Message of the `RuntimeError` raised on a non-zero exit (lines 430–432
and 485–487): the joined command line, the exit code, and the diagnostic
detail block. -/
def nonZeroExitMsg (cmd : List String) (code : Int) (detail : String) : String :=
  "명령 실행 실패: " ++ joinWords cmd ++ " (exit=" ++ toString code ++ ")" ++ detail

/-- Deadline expiry: with no timeout there is no deadline; with timeout `t`
the child hits the deadline exactly when it would run for at least `t`
seconds. -/
def timedOut : Option ℚ → ℚ → Bool
  | none, _ => false
  | some t, runtime => decide (t ≤ runtime)

/-- Streaming-mode failure detail (lines 428–429): the stripped combined
output, shortened to 2000 characters, under a `stdout/stderr:` label;
empty when the stripped output is empty. -/
def streamDetail (combinedOutput : String) : String :=
  let combined := pyStrip combinedOutput
  if combined = "" then "" else "\nstdout/stderr:\n" ++ textwrap_shorten combined 2000 " [...]"

/-- Quiet-mode failure detail (lines 478–484): stripped stderr if nonempty,
else stripped stdout if nonempty, each shortened to 2000 characters under
its label; empty otherwise. -/
def captureDetail (outText errText : String) : String :=
  let stdout := pyStrip outText
  let stderr := pyStrip errText
  if stderr ≠ "" then "\nstderr:\n" ++ textwrap_shorten stderr 2000 " [...]"
  else if stdout ≠ "" then "\nstdout:\n" ++ textwrap_shorten stdout 2000 " [...]"
  else ""

/-- The streaming branch of `run_command` (lines 315–434). `Popen` raises
`FileNotFoundError` before any indicator exists; otherwise the indicator is
created when rendering is enabled, the poll loop kills the child and raises
on deadline expiry, a non-zero exit raises with the shortened combined
output, and a zero exit returns the combined output with empty stderr. -/
def streamBranch (args : CallArgs) (w : World) (settings : ProgressSettings)
    (progressMessage : String) (canRender : Bool) : RunTrace :=
  if w.beh.found = false then
    { result := .error ⟨"RuntimeError", notFoundMsg args.cmd⟩
      killed := false
      resolvedSettings := settings
      indicatorConfig := none
      stderrWrites := [] }
  else
    let ind := if canRender then some (mkIndicatorConfig progressMessage settings) else none
    let writes := match ind with
      | some c => indicatorRun c 0 w.ticks
      | none => []
    if timedOut args.timeout w.beh.runtime then
      { result := .error ⟨"RuntimeError", timeoutMsg (args.timeout.getD 0) args.cmd⟩
        killed := true
        resolvedSettings := settings
        indicatorConfig := ind
        stderrWrites := writes }
    else if w.beh.exitCode ≠ 0 then
      { result := .error ⟨"RuntimeError",
          nonZeroExitMsg args.cmd w.beh.exitCode (streamDetail w.beh.combinedOutput)⟩
        killed := false
        resolvedSettings := settings
        indicatorConfig := ind
        stderrWrites := writes }
    else
      { result := .ok ⟨w.beh.exitCode, w.beh.combinedOutput, ""⟩
        killed := false
        resolvedSettings := settings
        indicatorConfig := ind
        stderrWrites := writes }

/-- The quiet/capture branch of `run_command` (lines 436–490). The
indicator is created and started before `subprocess.run`, so it exists on
every failure path; `subprocess.run(check=True, timeout=...)` kills the
child and raises on expiry, raises `FileNotFoundError` for a missing
executable and `CalledProcessError` on a non-zero exit, and a zero exit
returns the captured stdout and stderr. -/
def captureBranch (args : CallArgs) (w : World) (settings : ProgressSettings)
    (progressMessage : String) (canRender : Bool) : RunTrace :=
  let ind := if canRender then some (mkIndicatorConfig progressMessage settings) else none
  let writes := match ind with
    | some c => indicatorRun c 0 w.ticks
    | none => []
  if w.beh.found = false then
    { result := .error ⟨"RuntimeError", notFoundMsg args.cmd⟩
      killed := false
      resolvedSettings := settings
      indicatorConfig := ind
      stderrWrites := writes }
  else if timedOut args.timeout w.beh.runtime then
    { result := .error ⟨"RuntimeError", timeoutMsg (args.timeout.getD 0) args.cmd⟩
      killed := true
      resolvedSettings := settings
      indicatorConfig := ind
      stderrWrites := writes }
  else if w.beh.exitCode ≠ 0 then
    { result := .error ⟨"RuntimeError",
        nonZeroExitMsg args.cmd w.beh.exitCode (captureDetail w.beh.outText w.beh.errText)⟩
      killed := false
      resolvedSettings := settings
      indicatorConfig := ind
      stderrWrites := writes }
  else
    { result := .ok ⟨w.beh.exitCode, w.beh.outText, w.beh.errText⟩
      killed := false
      resolvedSettings := settings
      indicatorConfig := ind
      stderrWrites := writes }

/-- `run_command` (lines 265–490): resolve the progress settings once with
the argument > environment > defaults precedence, build the progress
message (`spinner_message or _default_progress_message(cmd)`), gate the
indicator on the resolved show flag and the tty check, then run the
streaming or the quiet branch. -/
def run_command (args : CallArgs) (w : World) : RunTrace :=
  let settings := resolveProgressSettings args w.env w.globals
  let progressMessage :=
    match args.spinnerMessage with
    | some m => if m = "" then _default_progress_message args.cmd else m
    | none => _default_progress_message args.cmd
  let canRender := settings.showProgress && w.stderrIsTTY
  if args.streamOutput then streamBranch args w settings progressMessage canRender
  else captureBranch args w settings progressMessage canRender

/-! ## Concrete instances used by witnesses and counterexamples -/

/-- The characters of `needle` occur contiguously inside `hay`. -/
abbrev StrHasSub (needle hay : String) : Prop := needle.data <:+: hay.data

/-- The characters of `p` are a leading segment of `s`. -/
abbrev StrStarts (p s : String) : Prop := p.data <+: s.data

/-- All-unset environment for concrete witnesses. -/
def emptyEnv : Env := fun _ => none

/-- Concrete arguments for the C1 witness: a found command exiting zero. -/
def c1args : CallArgs := { cmd := ["echo", "hi"] }

/-- Concrete world for the C1 witness. -/
def c1world : World :=
  { env := emptyEnv
    globals := {}
    stderrIsTTY := false
    beh := { found := true, runtime := 1, exitCode := 0,
             combinedOutput := "hi\n", outText := "hi\n", errText := "" }
    ticks := [] }

/-- Concrete world for the C5 witness: a 2-second child against a
1-second timeout. -/
def c5world : World :=
  { env := emptyEnv
    globals := {}
    stderrIsTTY := false
    beh := { found := true, runtime := 2, exitCode := 0,
             combinedOutput := "", outText := "", errText := "" }
    ticks := [] }

/-- Concrete environment for the C4 witness: only the style variable set. -/
def c4env : Env := fun n => if n = "CLI_PROGRESS_STYLE" then some "ascii" else none

/-- Concrete world for the C4 witness. -/
def c4world : World :=
  { env := c4env
    globals := {}
    stderrIsTTY := false
    beh := { found := true, runtime := 1, exitCode := 0,
             combinedOutput := "", outText := "", errText := "" }
    ticks := [] }

/-- Concrete world for the C6 witness: interactive terminal, long idle
schedule, but show-progress disabled through the environment. -/
def c6world : World :=
  { env := fun n => if n = "CLI_SHOW_PROGRESS" then some "0" else none
    globals := {}
    stderrIsTTY := true
    beh := { found := true, runtime := 1, exitCode := 0,
             combinedOutput := "", outText := "", errText := "" }
    ticks := [{ now := 100, last := 0 }, { now := 200, last := 0 }] }

/-- No write in the list contains a glyph from either frame set: the
formal reading of "the render path is never invoked". -/
def NoFrameGlyph (writes : List String) : Prop :=
  ∀ s ∈ writes, ∀ f ∈ _BRAILLE_FRAMES ++ _ASCII_FRAMES, ¬ StrHasSub f s

/-- Concrete world for the C7 witness (streaming mode). -/
def c7worldStream : World :=
  { env := emptyEnv
    globals := {}
    stderrIsTTY := true
    beh := { found := false, runtime := 0, exitCode := 0,
             combinedOutput := "", outText := "", errText := "" }
    ticks := [{ now := 5, last := 0 }] }

/-- Concrete world for the C7 counterexample (quiet mode): interactive
terminal, default settings, one indicator wake 5 seconds in while
`subprocess.run` is still attempting the spawn. -/
def c7world : World :=
  { env := emptyEnv
    globals := {}
    stderrIsTTY := true
    beh := { found := false, runtime := 0, exitCode := 0,
             combinedOutput := "", outText := "", errText := "" }
    ticks := [{ now := 5, last := 0 }] }

/-- The exception class of a raised failure, `none` on success. -/
def errTypeOf (tr : RunTrace) : Option String :=
  match tr.result with
  | Except.error e => some e.excType
  | Except.ok _ => none

/-- Concrete command for the C3 counterexample. -/
def c3cmd : List String := ["foo", "bar"]

/-- Concrete world producing the Not-Found failure. -/
def c3worldNotFound : World :=
  { env := emptyEnv
    globals := {}
    stderrIsTTY := false
    beh := { found := false, runtime := 0, exitCode := 0,
             combinedOutput := "", outText := "", errText := "" }
    ticks := [] }

/-- Concrete world producing the Timeout failure. -/
def c3worldTimeout : World :=
  { env := emptyEnv
    globals := {}
    stderrIsTTY := false
    beh := { found := true, runtime := 1000, exitCode := 0,
             combinedOutput := "", outText := "", errText := "" }
    ticks := [] }

/-- Concrete world producing the Non-Zero-Exit failure. -/
def c3worldNonZero : World :=
  { env := emptyEnv
    globals := {}
    stderrIsTTY := false
    beh := { found := true, runtime := 1, exitCode := 3,
             combinedOutput := "", outText := "", errText := "boom" }
    ticks := [] }

/-- Concatenation of `n` copies of a character list. -/
def repData (n : Nat) (cs : List Char) : List Char :=
  match n with
  | 0 => []
  | n + 1 => cs ++ repData n cs

/-- Captured diagnostic stream for the C2 counterexample: 251 copies of the
7-character word `abcdefg` separated by newlines, 2007 characters. -/
def c2big : String := ⟨("abcdefg").data ++ repData 250 (("\nabcdefg").data)⟩

/-- Arguments for the C2 counterexample (quiet mode). -/
def c2args : CallArgs := { cmd := ["tool"] }

/-- World for the C2 counterexample: the child runs, fails with exit 1 and
2007 characters of stderr. -/
def c2world : World :=
  { env := emptyEnv
    globals := {}
    stderrIsTTY := false
    beh := { found := true, runtime := 1, exitCode := 1,
             combinedOutput := "", outText := "", errText := c2big }
    ticks := [] }


/-! ## Helper predicates and lemmas for the claims -/

section RatKernelReducible

attribute [local semireducible] Rat.add Rat.sub Rat.mul Rat.inv Rat.ofScientific

/-- A string is always a contiguous segment of a concatenation around it. -/
theorem strHasSub_of_append (a b c : String) : StrHasSub b (a ++ b ++ c) :=
  ⟨a.data, c.data, by simp⟩

/-- A string that diverges from the literal head of a concatenation within
the first `k` characters is not a leading segment of it. -/
theorem not_prefix_of_take_ne (p lit : String) (rest : List Char) (k : Nat)
    (hpk : k ≤ p.data.length) (hk : k ≤ lit.data.length)
    (hne : p.data.take k ≠ lit.data.take k) :
    ¬ p.data <+: (lit.data ++ rest) := by
  intro h
  have htk : p.data.take k <+: p.data := ⟨p.data.drop k, List.take_append_drop k p.data⟩
  have h2 : p.data.take k <+: lit.data ++ rest := htk.trans h
  rw [List.prefix_iff_eq_take] at h2
  rw [List.length_take, Nat.min_eq_left hpk, List.take_append_of_le_length hk] at h2
  exact hne h2

/-- C10. The frame-set selector is total over arbitrary style strings: after
stripping and lowercasing, exactly the string `"ascii"` selects the 4-frame
ASCII cycle and every other value (unknown or empty styles included, never
rejected) selects the 10-frame braille cycle; the renderer cycles through
the selected frame set with the frame-set length as period. -/
theorem c10_select_frames_total (style : String) :
    (_select_frames style = _ASCII_FRAMES ∨ _select_frames style = _BRAILLE_FRAMES) ∧
    (_select_frames style = _ASCII_FRAMES ↔ pyLower (pyStrip style) = "ascii") ∧
    _ASCII_FRAMES.length = 4 ∧ _BRAILLE_FRAMES.length = 10 ∧
    (∀ (cfg : IndicatorConfig) (idx : Nat) (e : ℚ),
      renderText cfg (idx + (_select_frames cfg.style).length) e = renderText cfg idx e) := by
  refine ⟨?_, ?_, by decide, by decide, ?_⟩
  · by_cases h : pyLower (pyStrip style) = "ascii" <;> simp [_select_frames, h]
  · by_cases h : pyLower (pyStrip style) = "ascii" <;> simp [_select_frames, h]
    decide
  · intro cfg idx e
    simp [renderText, Nat.add_mod_right]

/-- Witness for C10 at a concrete style needing both stripping and
lowercasing. -/
theorem c10_select_frames_total_witness : _select_frames " ASCII " = _ASCII_FRAMES :=
  ((c10_select_frames_total " ASCII ").2.1).mpr (by decide)

/-- Helper: two-digit padding yields exactly two characters below 100. -/
theorem pad2_length_two : ∀ n : Nat, n < 100 → (pad2 n).length = 2 := by decide

/-- C8. For every non-negative elapsed-seconds value, values under 60
render as seconds and one tenths digit followed by `s` (the digits holding
the value rounded to tenths), and values of 60 and above render as whole
minutes, `m`, two-digit remaining seconds and `s`. -/
theorem c8_format_elapsed_shape (q : ℚ) (_h : 0 ≤ q) :
    (q < 60 → ∃ a b : Nat, b ≤ 9 ∧ a * 10 + b = (Rat.floor (q * 10 + 1 / 2)).toNat ∧
      _format_elapsed q = toString a ++ "." ++ toString b ++ "s") ∧
    (60 ≤ q → ∃ m s : Nat, s < 60 ∧ (pad2 s).length = 2 ∧ 60 * m + s = (Rat.floor q).toNat ∧
      _format_elapsed q = toString m ++ "m" ++ pad2 s ++ "s") := by
  constructor
  · intro hlt
    refine ⟨(Rat.floor (q * 10 + 1 / 2)).toNat / 10, (Rat.floor (q * 10 + 1 / 2)).toNat % 10,
      ?_, ?_, ?_⟩
    · omega
    · omega
    · simp only [_format_elapsed, if_pos hlt]
  · intro hge
    refine ⟨(Rat.floor q).toNat / 60, (Rat.floor q).toNat % 60, ?_, ?_, ?_, ?_⟩
    · omega
    · exact pad2_length_two _ (by omega)
    · omega
    · have hnlt : ¬ q < 60 := not_lt.mpr hge
      simp only [_format_elapsed, if_neg hnlt]

/-- Witness for C8 at 2.5 seconds: the under-60 branch applies. -/
theorem c8_format_elapsed_shape_witness :
    (0 : ℚ) ≤ 5 / 2 ∧
    ((5 / 2 : ℚ) < 60 → ∃ a b : Nat, b ≤ 9 ∧
      a * 10 + b = (Rat.floor ((5 / 2 : ℚ) * 10 + 1 / 2)).toNat ∧
      _format_elapsed (5 / 2) = toString a ++ "." ++ toString b ++ "s") :=
  ⟨by norm_num, (c8_format_elapsed_shape (5 / 2) (by norm_num)).1⟩

/-- C1. A `RunResult` is returned exactly when the child was found, beat
the deadline and exited with code zero; every other outcome is a raised
failure, and every returned `RunResult` has `returncode = 0`. -/
theorem c1_runresult_iff_clean_zero_exit (args : CallArgs) (w : World) :
    ((∃ r, (run_command args w).result = Except.ok r) ↔
      (w.beh.found = true ∧ timedOut args.timeout w.beh.runtime = false ∧ w.beh.exitCode = 0)) ∧
    (∀ r, (run_command args w).result = Except.ok r → r.returncode = 0) := by
  unfold run_command streamBranch captureBranch
  by_cases hs : args.streamOutput <;>
    by_cases hf : w.beh.found = true <;>
      by_cases hto : timedOut args.timeout w.beh.runtime = true <;>
        by_cases hc : w.beh.exitCode = 0 <;>
          simp_all

/-- Witness for C1: the clean zero-exit world really returns a result. -/
theorem c1_runresult_iff_clean_zero_exit_witness :
    ∃ r, (run_command c1args c1world).result = Except.ok r :=
  (c1_runresult_iff_clean_zero_exit c1args c1world).1.mpr ⟨rfl, by decide, rfl⟩

/-- Shared case lemma: a found child that hits the deadline makes both
modes kill the process and raise the timeout `RuntimeError`. -/
theorem run_command_timeout_case (args : CallArgs) (w : World) (t : ℚ)
    (hf : w.beh.found = true) (ht : args.timeout = some t) (hr : t ≤ w.beh.runtime) :
    (run_command args w).result = Except.error ⟨"RuntimeError", timeoutMsg t args.cmd⟩ ∧
    (run_command args w).killed = true := by
  have hto : timedOut args.timeout w.beh.runtime = true := by
    simp [ht, timedOut, hr]
  unfold run_command streamBranch captureBranch
  by_cases hs : args.streamOutput <;> simp_all [ht]

/-- Shared case lemma: without a deadline the child is never killed. -/
theorem run_command_no_deadline_not_killed (args : CallArgs) (w : World)
    (ht : args.timeout = none) : (run_command args w).killed = false := by
  have hto : timedOut args.timeout w.beh.runtime = false := by simp [ht, timedOut]
  unfold run_command streamBranch captureBranch
  by_cases hs : args.streamOutput <;>
    by_cases hf : w.beh.found = true <;>
      by_cases hc : w.beh.exitCode = 0 <;>
        simp_all

/-- C5. A command whose runtime reaches the configured timeout (in either
mode) raises a Timeout failure whose message carries the configured bound
and the full command line, and the child is forcibly killed. -/
theorem c5_timeout_kills_and_reports (args : CallArgs) (w : World) (t : ℚ)
    (hf : w.beh.found = true) (ht : args.timeout = some t) (hr : t ≤ w.beh.runtime) :
    (run_command args w).result = Except.error ⟨"RuntimeError", timeoutMsg t args.cmd⟩ ∧
    (run_command args w).killed = true ∧
    StrHasSub (toString t) (timeoutMsg t args.cmd) ∧
    StrHasSub (joinWords args.cmd) (timeoutMsg t args.cmd) := by
  obtain ⟨h1, h2⟩ := run_command_timeout_case args w t hf ht hr
  refine ⟨h1, h2, ⟨("명령 실행이 " : String).data,
      ("초 안에 끝나지 않았습니다: " ++ joinWords args.cmd).data, ?_⟩,
    ⟨("명령 실행이 " ++ toString t ++ "초 안에 끝나지 않았습니다: " : String).data, [], ?_⟩⟩ <;>
    simp [timeoutMsg]

/-- Witness for C5 at timeout 1 and runtime 2. -/
theorem c5_timeout_kills_and_reports_witness :
    (run_command { cmd := ["sleep", "9"], timeout := some 1 } c5world).result =
      Except.error ⟨"RuntimeError", timeoutMsg 1 ["sleep", "9"]⟩ ∧
    (run_command { cmd := ["sleep", "9"], timeout := some 1 } c5world).killed = true ∧
    StrHasSub (toString (1 : ℚ)) (timeoutMsg 1 ["sleep", "9"]) ∧
    StrHasSub (joinWords ["sleep", "9"]) (timeoutMsg 1 ["sleep", "9"]) :=
  c5_timeout_kills_and_reports { cmd := ["sleep", "9"], timeout := some 1 } c5world 1
    rfl rfl (by decide)

/-- C9. Omitting the timeout argument does not run without a deadline: the
default is 900 seconds, a run reaching 900 seconds is killed with a Timeout
failure, and only an explicit `timeout := none` removes the deadline (the
child is then never killed by the runner). -/
theorem c9_default_timeout_900 (cmd : List String) (w : World) :
    ({ cmd := cmd } : CallArgs).timeout = some 900 ∧
    (w.beh.found = true → 900 ≤ w.beh.runtime →
      (run_command { cmd := cmd } w).result = Except.error ⟨"RuntimeError", timeoutMsg 900 cmd⟩ ∧
      (run_command { cmd := cmd } w).killed = true) ∧
    (run_command { cmd := cmd, timeout := none } w).killed = false := by
  refine ⟨rfl, ?_, run_command_no_deadline_not_killed _ w rfl⟩
  intro hf hr
  exact run_command_timeout_case { cmd := cmd } w 900 hf rfl hr

/-- Witness for C9: a 1000-second run against the default deadline is
killed, and is not killed when the deadline is removed explicitly. -/
theorem c9_default_timeout_900_witness :
    (run_command { cmd := ["big","job"] }
        { env := emptyEnv, globals := {}, stderrIsTTY := false
          beh := { found := true, runtime := 1000, exitCode := 0,
                   combinedOutput := "", outText := "", errText := "" }
          ticks := [] }).killed = true ∧
    (run_command { cmd := ["big","job"], timeout := none }
        { env := emptyEnv, globals := {}, stderrIsTTY := false
          beh := { found := true, runtime := 1000, exitCode := 0,
                   combinedOutput := "", outText := "", errText := "" }
          ticks := [] }).killed = false := by
  constructor
  · exact ((c9_default_timeout_900 ["big","job"] _).2.1 rfl (by norm_num)).2
  · exact (c9_default_timeout_900 ["big","job"] _).2.2

/-- Shared lemma: the trace always records the settings resolved by the
argument > environment > default precedence, in both modes. -/
theorem run_command_resolvedSettings (args : CallArgs) (w : World) :
    (run_command args w).resolvedSettings = resolveProgressSettings args w.env w.globals := by
  unfold run_command streamBranch captureBranch
  by_cases hs : args.streamOutput <;>
    by_cases hf : w.beh.found = true <;>
      by_cases hto : timedOut args.timeout w.beh.runtime = true <;>
        by_cases hc : w.beh.exitCode = 0 <;>
          by_cases hcr : ((resolveProgressSettings args w.env w.globals).showProgress
              && w.stderrIsTTY) = true <;>
            simp_all

/-- C4. Each of the four progress settings is resolved by the fixed
precedence explicit call argument > environment-variable override >
process-wide default, the resolution is shared by both code paths (the
trace of the streaming call and of the quiet call carry the same resolved
settings for the same inputs), and the resolution is what every call
records. -/
theorem c4_settings_precedence_and_mode_agreement (args : CallArgs) (w : World) :
    ((run_command args w).resolvedSettings = resolveProgressSettings args w.env w.globals) ∧
    ((run_command { args with streamOutput := true } w).resolvedSettings =
      (run_command { args with streamOutput := false } w).resolvedSettings) ∧
    ((∀ b, args.showProgress = some b →
        (resolveProgressSettings args w.env w.globals).showProgress = b) ∧
      (args.showProgress = none → ∀ b, _parse_env_bool w.env "CLI_SHOW_PROGRESS" = some b →
        (resolveProgressSettings args w.env w.globals).showProgress = b) ∧
      (args.showProgress = none → _parse_env_bool w.env "CLI_SHOW_PROGRESS" = none →
        (resolveProgressSettings args w.env w.globals).showProgress = w.globals.showProgress)) ∧
    ((∀ q, args.progressIdleSeconds = some q →
        (resolveProgressSettings args w.env w.globals).idleSeconds = q) ∧
      (args.progressIdleSeconds = none →
        ∀ q, _parse_env_float w.env "CLI_PROGRESS_IDLE_SECONDS" = some q →
          (resolveProgressSettings args w.env w.globals).idleSeconds = q) ∧
      (args.progressIdleSeconds = none →
        _parse_env_float w.env "CLI_PROGRESS_IDLE_SECONDS" = none →
          (resolveProgressSettings args w.env w.globals).idleSeconds = w.globals.idleSeconds)) ∧
    ((∀ s, args.progressStyle = some s →
        (resolveProgressSettings args w.env w.globals).style = s) ∧
      (args.progressStyle = none → ∀ s, w.env "CLI_PROGRESS_STYLE" = some s →
        (resolveProgressSettings args w.env w.globals).style = s) ∧
      (args.progressStyle = none → w.env "CLI_PROGRESS_STYLE" = none →
        (resolveProgressSettings args w.env w.globals).style = w.globals.style)) ∧
    ((∀ q, args.progressInterval = some q →
        (resolveProgressSettings args w.env w.globals).interval = q) ∧
      (args.progressInterval = none →
        ∀ q, _parse_env_float w.env "CLI_PROGRESS_INTERVAL_SECONDS" = some q →
          (resolveProgressSettings args w.env w.globals).interval = q) ∧
      (args.progressInterval = none →
        _parse_env_float w.env "CLI_PROGRESS_INTERVAL_SECONDS" = none →
          (resolveProgressSettings args w.env w.globals).interval = w.globals.interval)) := by
  refine ⟨run_command_resolvedSettings args w, ?_, ?_, ?_, ?_, ?_⟩
  · rw [run_command_resolvedSettings, run_command_resolvedSettings]; rfl
  all_goals
    refine ⟨?_, ?_, ?_⟩ <;>
      simp only [resolveProgressSettings, resolveOpt, _get_progress_defaults,
        _progress_settings_from_env] <;>
      intros <;> simp_all

/-- Witness for C4: an explicit show flag beats everything, the style
environment variable beats the global default, and the remaining fields
fall back to the globals. -/
theorem c4_settings_precedence_and_mode_agreement_witness :
    (resolveProgressSettings { cmd := ["x"], showProgress := some false } c4world.env
        c4world.globals).showProgress = false ∧
    (resolveProgressSettings { cmd := ["x"], showProgress := some false } c4world.env
        c4world.globals).style = "ascii" ∧
    (resolveProgressSettings { cmd := ["x"], showProgress := some false } c4world.env
        c4world.globals).idleSeconds = 2 := by
  have h := c4_settings_precedence_and_mode_agreement
    { cmd := ["x"], showProgress := some false } c4world
  refine ⟨h.2.2.1.1 false rfl, h.2.2.2.2.1.2.1 rfl "ascii" rfl, h.2.2.2.1.2.2 rfl rfl⟩

/-- C6. When the resolved show-progress flag is false or the error stream
is not an interactive terminal, no indicator is created and nothing is ever
written to the error stream, regardless of the wake schedule. -/
theorem c6_gated_indicator_never_writes (args : CallArgs) (w : World)
    (h : (resolveProgressSettings args w.env w.globals).showProgress = false ∨
      w.stderrIsTTY = false) :
    (run_command args w).indicatorConfig = none ∧
    (run_command args w).stderrWrites = [] := by
  unfold run_command streamBranch captureBranch
  by_cases hs : args.streamOutput <;>
    by_cases hf : w.beh.found = true <;>
      by_cases hto : timedOut args.timeout w.beh.runtime = true <;>
        by_cases hc : w.beh.exitCode = 0 <;>
          by_cases hsp : (resolveProgressSettings args w.env w.globals).showProgress = true <;>
            by_cases htty : w.stderrIsTTY = true <;>
              simp_all

/-- Witness for C6: with the environment disabling progress, nothing is
written even though the schedule would render twice. -/
theorem c6_gated_indicator_never_writes_witness :
    (run_command { cmd := ["x"] } c6world).indicatorConfig = none ∧
    (run_command { cmd := ["x"] } c6world).stderrWrites = [] :=
  c6_gated_indicator_never_writes { cmd := ["x"] } c6world (Or.inl (by decide))

/-- C7, amended. A non-existent executable always raises the Not-Found
failure naming the missing program; in streaming mode the failure is raised
before the indicator is created, so nothing is ever written to the error
stream — but only in streaming mode. -/
theorem c7_not_found_amended (args : CallArgs) (w : World) (h : w.beh.found = false) :
    (run_command args w).result = Except.error ⟨"RuntimeError", notFoundMsg args.cmd⟩ ∧
    StrHasSub (args.cmd.headD "") (notFoundMsg args.cmd) ∧
    (args.streamOutput = true →
      (run_command args w).indicatorConfig = none ∧
      (run_command args w).stderrWrites = []) := by
  refine ⟨?_, ?_, ?_⟩
  · unfold run_command streamBranch captureBranch
    by_cases hs : args.streamOutput <;> simp_all
  · exact ⟨("필요한 명령을 찾을 수 없습니다: " : String).data,
      (" (gcloud/docker 가 설치되어 있는지 확인하세요)" : String).data, by simp [notFoundMsg]⟩
  · intro hs
    unfold run_command streamBranch captureBranch
    simp_all

/-- Witness for C7 (amended) in streaming mode: the Not-Found failure is
raised and nothing reaches the error stream. -/
theorem c7_not_found_amended_witness :
    (run_command { cmd := ["nosuchtool"], streamOutput := true } c7worldStream).result =
      Except.error ⟨"RuntimeError", notFoundMsg ["nosuchtool"]⟩ ∧
    (run_command { cmd := ["nosuchtool"], streamOutput := true } c7worldStream).stderrWrites =
      [] := by
  have h := c7_not_found_amended { cmd := ["nosuchtool"], streamOutput := true }
    c7worldStream rfl
  exact ⟨h.1, (h.2.2 rfl).2⟩

/-- C7, counterexample. In quiet mode the indicator is started before the
executable lookup, so under this schedule a braille frame is written to the
error stream even though the call raises the Not-Found failure: the render
path is invoked before the failure propagates. -/
theorem c7_not_found_counterexample :
    (run_command { cmd := ["nosuchtool"] } c7world).result =
      Except.error ⟨"RuntimeError", notFoundMsg ["nosuchtool"]⟩ ∧
    ¬ NoFrameGlyph (run_command { cmd := ["nosuchtool"] } c7world).stderrWrites := by
  constructor
  · rfl
  · intro hno
    have hmem : ("\r⠋ nosuchtool  5.0s" : String) ∈
        (run_command { cmd := ["nosuchtool"] } c7world).stderrWrites := by decide
    have hglyph : ("⠋" : String) ∈ _BRAILLE_FRAMES ++ _ASCII_FRAMES := by decide
    have hsub : StrHasSub "⠋" "\r⠋ nosuchtool  5.0s" :=
      ⟨("\r" : String).data, (" nosuchtool  5.0s" : String).data, by decide⟩
    exact hno _ hmem _ hglyph hsub

end RatKernelReducible

/-- Shared case lemma: a found child beating the deadline with a non-zero
exit code raises the non-zero-exit `RuntimeError` (both modes), with the
mode's diagnostic detail embedded. -/
theorem run_command_nonzero_case (args : CallArgs) (w : World)
    (hf : w.beh.found = true) (hto : timedOut args.timeout w.beh.runtime = false)
    (hc : w.beh.exitCode ≠ 0) :
    (run_command args w).result = Except.error ⟨"RuntimeError",
      nonZeroExitMsg args.cmd w.beh.exitCode
        (if args.streamOutput then streamDetail w.beh.combinedOutput
         else captureDetail w.beh.outText w.beh.errText)⟩ := by
  unfold run_command streamBranch captureBranch
  by_cases hs : args.streamOutput <;> simp_all

/-- The non-zero-exit message starts with its fixed marker and embeds the
exit code and the full joined command line, whatever the detail block is. -/
theorem nonZeroExitMsg_marks (cmd : List String) (code : Int) (d : String) :
    StrStarts "명령 실행 실패: " (nonZeroExitMsg cmd code d) ∧
    StrHasSub (toString code) (nonZeroExitMsg cmd code d) ∧
    StrHasSub (joinWords cmd) (nonZeroExitMsg cmd code d) := by
  refine ⟨⟨(joinWords cmd ++ " (exit=" ++ toString code ++ ")" ++ d).data, ?_⟩,
    ⟨("명령 실행 실패: " ++ joinWords cmd ++ " (exit=" : String).data, (")" ++ d).data, ?_⟩,
    ⟨("명령 실행 실패: " : String).data,
      (" (exit=" ++ toString code ++ ")" ++ d).data, ?_⟩⟩ <;> simp [nonZeroExitMsg]

/-- Shared case lemma: a missing executable raises the not-found
`RuntimeError` in both modes. -/
theorem run_command_not_found_case (args : CallArgs) (w : World)
    (h : w.beh.found = false) :
    (run_command args w).result = Except.error ⟨"RuntimeError", notFoundMsg args.cmd⟩ := by
  unfold run_command streamBranch captureBranch
  by_cases hs : args.streamOutput <;> simp_all

/-- C3, amended. The three failure outcomes are all raised as the same
catchable type (`RuntimeError`): they are distinguishable by their message
text, not by type. Each message starts with its own fixed marker that the
other two messages can never start with; the Timeout message carries the
bound and the full command line, the Non-Zero-Exit message carries the exit
code and the full command line, and the Not-Found message carries only the
program name `cmd[0]`. -/
theorem c3_failure_taxonomy_amended (args : CallArgs) (w : World) :
    (w.beh.found = false →
      (run_command args w).result = Except.error ⟨"RuntimeError", notFoundMsg args.cmd⟩ ∧
      StrStarts "필요한 명령을 찾을 수 없습니다: " (notFoundMsg args.cmd) ∧
      StrHasSub (args.cmd.headD "") (notFoundMsg args.cmd)) ∧
    (∀ t : ℚ, w.beh.found = true → args.timeout = some t → t ≤ w.beh.runtime →
      (run_command args w).result = Except.error ⟨"RuntimeError", timeoutMsg t args.cmd⟩ ∧
      StrStarts "명령 실행이 " (timeoutMsg t args.cmd) ∧
      StrHasSub (toString t) (timeoutMsg t args.cmd) ∧
      StrHasSub (joinWords args.cmd) (timeoutMsg t args.cmd)) ∧
    (w.beh.found = true → timedOut args.timeout w.beh.runtime = false → w.beh.exitCode ≠ 0 →
      ∃ detail,
        (run_command args w).result =
          Except.error ⟨"RuntimeError", nonZeroExitMsg args.cmd w.beh.exitCode detail⟩ ∧
        StrStarts "명령 실행 실패: " (nonZeroExitMsg args.cmd w.beh.exitCode detail) ∧
        StrHasSub (toString w.beh.exitCode) (nonZeroExitMsg args.cmd w.beh.exitCode detail) ∧
        StrHasSub (joinWords args.cmd) (nonZeroExitMsg args.cmd w.beh.exitCode detail)) ∧
    ((∀ t : ℚ, ¬ StrStarts "명령 실행 실패: " (timeoutMsg t args.cmd)) ∧
      (∀ t : ℚ, ¬ StrStarts "필요한 명령을 찾을 수 없습니다: " (timeoutMsg t args.cmd)) ∧
      (∀ d : String, ¬ StrStarts "명령 실행이 " (nonZeroExitMsg args.cmd w.beh.exitCode d)) ∧
      (∀ d : String, ¬ StrStarts "필요한 명령을 찾을 수 없습니다: "
        (nonZeroExitMsg args.cmd w.beh.exitCode d)) ∧
      (¬ StrStarts "명령 실행이 " (notFoundMsg args.cmd)) ∧
      (¬ StrStarts "명령 실행 실패: " (notFoundMsg args.cmd))) := by
  refine ⟨?_, ?_, ?_, ?_⟩
  · intro h
    refine ⟨run_command_not_found_case args w h, ⟨(args.cmd.headD ""
        ++ " (gcloud/docker 가 설치되어 있는지 확인하세요)").data, ?_⟩,
      ⟨("필요한 명령을 찾을 수 없습니다: " : String).data,
        (" (gcloud/docker 가 설치되어 있는지 확인하세요)" : String).data, ?_⟩⟩ <;>
      simp [notFoundMsg]
  · intro t hf ht hr
    refine ⟨(run_command_timeout_case args w t hf ht hr).1,
      ⟨(toString t ++ "초 안에 끝나지 않았습니다: " ++ joinWords args.cmd).data, ?_⟩,
      ⟨("명령 실행이 " : String).data,
        ("초 안에 끝나지 않았습니다: " ++ joinWords args.cmd).data, ?_⟩,
      ⟨("명령 실행이 " ++ toString t ++ "초 안에 끝나지 않았습니다: " : String).data, [], ?_⟩⟩ <;>
      simp [timeoutMsg]
  · intro hf hto hc
    exact ⟨_, run_command_nonzero_case args w hf hto hc,
      (nonZeroExitMsg_marks args.cmd w.beh.exitCode _).1,
      (nonZeroExitMsg_marks args.cmd w.beh.exitCode _).2.1,
      (nonZeroExitMsg_marks args.cmd w.beh.exitCode _).2.2⟩
  · refine ⟨?_, ?_, ?_, ?_, ?_, ?_⟩
    · intro t
      show ¬ _ <+: (timeoutMsg t args.cmd).data
      have : (timeoutMsg t args.cmd).data = ("명령 실행이 " : String).data ++
          (toString t ++ "초 안에 끝나지 않았습니다: " ++ joinWords args.cmd).data := by
        simp [timeoutMsg]
      rw [this]
      exact not_prefix_of_take_ne _ _ _ 6 (by decide) (by decide) (by decide)
    · intro t
      show ¬ _ <+: (timeoutMsg t args.cmd).data
      have : (timeoutMsg t args.cmd).data = ("명령 실행이 " : String).data ++
          (toString t ++ "초 안에 끝나지 않았습니다: " ++ joinWords args.cmd).data := by
        simp [timeoutMsg]
      rw [this]
      exact not_prefix_of_take_ne _ _ _ 1 (by decide) (by decide) (by decide)
    · intro d
      show ¬ _ <+: (nonZeroExitMsg args.cmd w.beh.exitCode d).data
      have : (nonZeroExitMsg args.cmd w.beh.exitCode d).data =
          ("명령 실행 실패: " : String).data ++ (joinWords args.cmd ++ " (exit=" ++
            toString w.beh.exitCode ++ ")" ++ d).data := by
        simp [nonZeroExitMsg]
      rw [this]
      exact not_prefix_of_take_ne _ _ _ 6 (by decide) (by decide) (by decide)
    · intro d
      show ¬ _ <+: (nonZeroExitMsg args.cmd w.beh.exitCode d).data
      have : (nonZeroExitMsg args.cmd w.beh.exitCode d).data =
          ("명령 실행 실패: " : String).data ++ (joinWords args.cmd ++ " (exit=" ++
            toString w.beh.exitCode ++ ")" ++ d).data := by
        simp [nonZeroExitMsg]
      rw [this]
      exact not_prefix_of_take_ne _ _ _ 1 (by decide) (by decide) (by decide)
    · show ¬ _ <+: (notFoundMsg args.cmd).data
      have : (notFoundMsg args.cmd).data = ("필요한 명령을 찾을 수 없습니다: " : String).data ++
          (args.cmd.headD "" ++ " (gcloud/docker 가 설치되어 있는지 확인하세요)").data := by
        simp [notFoundMsg]
      rw [this]
      exact not_prefix_of_take_ne _ _ _ 1 (by decide) (by decide) (by decide)
    · show ¬ _ <+: (notFoundMsg args.cmd).data
      have : (notFoundMsg args.cmd).data = ("필요한 명령을 찾을 수 없습니다: " : String).data ++
          (args.cmd.headD "" ++ " (gcloud/docker 가 설치되어 있는지 확인하세요)").data := by
        simp [notFoundMsg]
      rw [this]
      exact not_prefix_of_take_ne _ _ _ 1 (by decide) (by decide) (by decide)

/-- C3, counterexample. All three failures carry the same exception class
`RuntimeError`, so they are not distinguishable by type; moreover the
Not-Found message does not carry the full command line (only `cmd[0]`). -/
theorem c3_failure_taxonomy_counterexample :
    errTypeOf (run_command { cmd := c3cmd } c3worldNotFound) = some "RuntimeError" ∧
    errTypeOf (run_command { cmd := c3cmd } c3worldTimeout) = some "RuntimeError" ∧
    errTypeOf (run_command { cmd := c3cmd } c3worldNonZero) = some "RuntimeError" ∧
    ¬ (errTypeOf (run_command { cmd := c3cmd } c3worldNotFound) ≠
        errTypeOf (run_command { cmd := c3cmd } c3worldTimeout) ∧
       errTypeOf (run_command { cmd := c3cmd } c3worldTimeout) ≠
        errTypeOf (run_command { cmd := c3cmd } c3worldNonZero)) ∧
    ¬ StrHasSub (joinWords c3cmd) (notFoundMsg c3cmd) := by
  refine ⟨by decide, by decide, by decide, ?_, by decide⟩
  rintro ⟨hne, -⟩
  exact hne (by decide)

/-- Witness for C3 (amended) at the three concrete worlds: the three
messages start with their three distinct markers. -/
theorem c3_failure_taxonomy_amended_witness :
    ((run_command { cmd := c3cmd } c3worldNotFound).result =
      Except.error ⟨"RuntimeError", notFoundMsg c3cmd⟩ ∧
      StrStarts "필요한 명령을 찾을 수 없습니다: " (notFoundMsg c3cmd) ∧
      StrHasSub (c3cmd.headD "") (notFoundMsg c3cmd)) ∧
    ((run_command { cmd := c3cmd } c3worldTimeout).result =
      Except.error ⟨"RuntimeError", timeoutMsg 900 c3cmd⟩) ∧
    ¬ StrStarts "명령 실행이 " (notFoundMsg c3cmd) := by
  refine ⟨(c3_failure_taxonomy_amended { cmd := c3cmd } c3worldNotFound).1 rfl,
    ((c3_failure_taxonomy_amended { cmd := c3cmd } c3worldTimeout).2.1 900 rfl rfl
      (by decide)).1,
    (c3_failure_taxonomy_amended { cmd := c3cmd } c3worldNotFound).2.2.2.2.2.2.2.1⟩

/-- Joining a word onto a nonempty list inserts one space. -/
theorem joinWords_cons_ne (w : String) (ws : List String) (h : ws ≠ []) :
    joinWords (w :: ws) = w ++ " " ++ joinWords ws := by
  cases ws with
  | nil => exact absurd rfl h
  | cons v vs => rfl

/-- The words kept by the greedy fitting are a leading segment of the
original word list. -/
theorem fitWords_prefix_words (ws : List String) (b : Nat) : fitWords ws b <+: ws := by
  induction ws generalizing b with
  | nil => exact ⟨[], rfl⟩
  | cons w rest ih =>
    simp only [fitWords]
    by_cases hw : w.length + 1 ≤ b
    · rw [if_pos hw]
      obtain ⟨t, ht⟩ := ih (b - (w.length + 1))
      exact ⟨t, by simp [ht]⟩
    · rw [if_neg hw]
      exact ⟨w :: rest, rfl⟩

/-- The kept words joined with spaces consume strictly less than the
budget: their joined length plus one never exceeds it. -/
theorem fitWords_joinWords_length (ws : List String) (b : Nat)
    (h : fitWords ws b ≠ []) : (joinWords (fitWords ws b)).length + 1 ≤ b := by
  induction ws generalizing b with
  | nil => simp [fitWords] at h
  | cons w rest ih =>
    simp only [fitWords] at h ⊢
    by_cases hw : w.length + 1 ≤ b
    · rw [if_pos hw] at h ⊢
      by_cases hrest : fitWords rest (b - (w.length + 1)) = []
      · rw [hrest]
        simp only [joinWords]
        omega
      · rw [joinWords_cons_ne _ _ hrest]
        have hr := ih (b - (w.length + 1)) hrest
        have hlen2 : (w ++ " " ++ joinWords (fitWords rest (b - (w.length + 1)))).length =
            w.length + (" " : String).length +
              (joinWords (fitWords rest (b - (w.length + 1)))).length := by
          simp [String.length_append]
        have hone : (" " : String).length = 1 := rfl
        omega
    · rw [if_neg hw] at h
      exact absurd rfl h

/-- C2, amended. When the whitespace-collapsed diagnostic output exceeds
the 2000-character embed limit, the embedded text is at most 2000
characters long; it either degenerates to the bare placeholder or consists
of a nonempty leading segment of the collapsed output's words joined by
single spaces, followed by the explicit trailing placeholder. (It is not in
general exactly 2000 characters, and — whitespace runs having been
collapsed and the cut being at a word boundary — not in general a prefix of
the real captured output.) -/
theorem c2_truncation_amended (raw : String) (h : 2000 < (pyNormalize raw).length) :
    (textwrap_shorten raw 2000 " [...]").length ≤ 2000 ∧
    (textwrap_shorten raw 2000 " [...]" = "[...]" ∨
      ∃ ws, ws ≠ [] ∧ ws <+: pyWords raw ∧
        textwrap_shorten raw 2000 " [...]" = joinWords ws ++ " [...]") := by
  have hgt : ¬ (pyNormalize raw).length ≤ 2000 := by omega
  have h1995 : 2000 + 1 - (" [...]" : String).length = 1995 := rfl
  have hphl : pyLStrip " [...]" = "[...]" := rfl
  have hsh : textwrap_shorten raw 2000 " [...]" =
      (if fitWords (pyWords raw) 1995 = [] then ("[...]" : String)
       else joinWords (fitWords (pyWords raw) 1995) ++ " [...]") := by
    simp only [textwrap_shorten, if_neg hgt]
    rw [h1995, hphl]
  by_cases hk : fitWords (pyWords raw) 1995 = []
  · rw [hsh, if_pos hk]
    exact ⟨by decide, Or.inl rfl⟩
  · rw [hsh, if_neg hk]
    have hb := fitWords_joinWords_length (pyWords raw) 1995 hk
    constructor
    · rw [String.length_append]
      have h6 : (" [...]" : String).length = 6 := rfl
      omega
    · exact Or.inr ⟨fitWords (pyWords raw) 1995, hk, fitWords_prefix_words _ _, rfl⟩

/-- Length of a repeated character list. -/
theorem repData_length (n : Nat) (cs : List Char) :
    (repData n cs).length = n * cs.length := by
  induction n with
  | zero => simp [repData]
  | succ n ih => simp [repData, ih]; ring

/-- A repeated block commutes with one extra copy of itself. -/
theorem repData_append_self (n : Nat) (x : List Char) :
    repData n x ++ x = x ++ repData n x := by
  induction n with
  | zero => simp [repData]
  | succ n ih => simp [repData, List.append_assoc, ih]

/-- Reversing a repeated block repeats the reversed block. -/
theorem repData_reverse (n : Nat) (cs : List Char) :
    (repData n cs).reverse = repData n cs.reverse := by
  induction n with
  | zero => rfl
  | succ n ih =>
    show (cs ++ repData n cs).reverse = cs.reverse ++ repData n cs.reverse
    rw [List.reverse_append, ih, repData_append_self]

/-- The counterexample stream is 2007 characters long. -/
theorem c2big_length : c2big.length = 2007 := by
  show (("abcdefg").data ++ repData 250 (("\nabcdefg").data)).length = 2007
  rw [List.length_append, repData_length]
  rfl

/-- Head-normal form of the counterexample stream's characters. -/
theorem c2big_data : c2big.data =
    'a' :: (("bcdefg").data ++ repData 250 (("\nabcdefg").data)) := rfl

/-- The counterexample stream has no surrounding whitespace to strip. -/
theorem c2big_strip : pyStrip c2big = c2big := by
  have hfront : c2big.data.dropWhile Char.isWhitespace = c2big.data := by
    rw [c2big_data, List.dropWhile_cons]
    simp
  have h2 : c2big.data.reverse =
      repData 250 ((("\nabcdefg").data).reverse) ++ (("abcdefg").data).reverse := by
    show (("abcdefg").data ++ repData 250 (("\nabcdefg").data)).reverse = _
    rw [List.reverse_append, repData_reverse]
  have hback : c2big.data.reverse.dropWhile Char.isWhitespace = c2big.data.reverse := by
    rw [h2]
    have h3 : repData 250 ((("\nabcdefg").data).reverse) ++ (("abcdefg").data).reverse =
        'g' :: ((("fedcba\n").data) ++
          (repData 249 ((("\nabcdefg").data).reverse) ++ (("abcdefg").data).reverse)) := rfl
    rw [h3, List.dropWhile_cons]
    simp
  show (⟨((c2big.data.dropWhile Char.isWhitespace).reverse.dropWhile
      Char.isWhitespace).reverse⟩ : String) = c2big
  rw [hfront, hback, List.reverse_reverse]

/-- Splitting `n` newline-prefixed copies of the word after a partial word
flushes the partial word and yields `n` whole words. -/
theorem pySplitWsAux_rep (n : Nat) :
    ∀ acc : List Char, acc ≠ [] →
      pySplitWsAux (repData n (("\nabcdefg").data)) acc =
        acc.reverse :: List.replicate n (("abcdefg").data) := by
  induction n with
  | zero =>
    intro acc h
    cases acc with
    | nil => exact absurd rfl h
    | cons c cs => rfl
  | succ n ih =>
    intro acc h
    have hstep : repData (n + 1) (("\nabcdefg").data) =
        '\n' :: (("abcdefg").data ++ repData n (("\nabcdefg").data)) := rfl
    rw [hstep]
    cases acc with
    | nil => exact absurd rfl h
    | cons c cs =>
      show (c :: cs).reverse :: pySplitWsAux (("abcdefg").data ++
          repData n (("\nabcdefg").data)) [] = _
      have hword : pySplitWsAux (("abcdefg").data ++ repData n (("\nabcdefg").data)) [] =
          pySplitWsAux (repData n (("\nabcdefg").data)) (("abcdefg").data).reverse := rfl
      rw [hword, ih (("abcdefg").data).reverse (by decide), List.reverse_reverse,
        List.replicate_succ]

/-- One step of the splitter over a non-whitespace character. -/
theorem pySplitWsAux_step (c : Char) (h : c.isWhitespace = false) (cs acc : List Char) :
    pySplitWsAux (c :: cs) acc = pySplitWsAux cs (c :: acc) := by
  simp only [pySplitWsAux, h]
  rfl

/-- The words of the counterexample stream: 251 copies of the word. -/
theorem c2big_words : pyWords c2big = List.replicate 251 "abcdefg" := by
  show (pySplitWsAux c2big.data []).map (fun cs => (⟨cs⟩ : String)) = _
  rw [c2big_data]
  have h7 : pySplitWsAux ('a' :: (("bcdefg").data ++ repData 250 (("\nabcdefg").data))) [] =
      pySplitWsAux (repData 250 (("\nabcdefg").data)) ['g', 'f', 'e', 'd', 'c', 'b', 'a'] := by
    show pySplitWsAux ('a' :: 'b' :: 'c' :: 'd' :: 'e' :: 'f' :: 'g' ::
        repData 250 (("\nabcdefg").data)) [] = _
    rw [pySplitWsAux_step 'a' (by decide), pySplitWsAux_step 'b' (by decide),
      pySplitWsAux_step 'c' (by decide), pySplitWsAux_step 'd' (by decide),
      pySplitWsAux_step 'e' (by decide), pySplitWsAux_step 'f' (by decide),
      pySplitWsAux_step 'g' (by decide)]
  rw [h7, pySplitWsAux_rep 250 ['g', 'f', 'e', 'd', 'c', 'b', 'a'] (by decide)]
  have hrev : (['g', 'f', 'e', 'd', 'c', 'b', 'a'] : List Char).reverse = ("abcdefg").data := by
    decide
  rw [hrev, ← List.replicate_succ, List.map_replicate]

/-- Joined length of `n + 1` copies of the 7-character word. -/
theorem joinWords_rep_length (n : Nat) :
    (joinWords (List.replicate (n + 1) "abcdefg")).length = 8 * (n + 1) - 1 := by
  induction n with
  | zero => rfl
  | succ n ih =>
    rw [List.replicate_succ, joinWords_cons_ne _ _ (by simp)]
    have hlen : (("abcdefg" : String) ++ " " ++
        joinWords (List.replicate (n + 1) "abcdefg")).length =
        ("abcdefg" : String).length + (" " : String).length +
          (joinWords (List.replicate (n + 1) "abcdefg")).length := by
      rw [String.length_append, String.length_append]
    have h7 : ("abcdefg" : String).length = 7 := rfl
    have h1 : (" " : String).length = 1 := rfl
    omega

/-- Greedy fitting of equal 7-character words keeps `b / 8` of them. -/
theorem fitWords_rep_word (n : Nat) : ∀ b : Nat,
    fitWords (List.replicate n "abcdefg") b = List.replicate (min n (b / 8)) "abcdefg" := by
  induction n with
  | zero => intro b; simp [fitWords]
  | succ n ih =>
    intro b
    rw [List.replicate_succ]
    show fitWords ("abcdefg" :: List.replicate n "abcdefg") b = _
    have h7 : ("abcdefg" : String).length = 7 := rfl
    simp only [fitWords, h7]
    by_cases hb : 7 + 1 ≤ b
    · rw [if_pos hb, ih (b - (7 + 1))]
      have hmin : min n ((b - (7 + 1)) / 8) + 1 = min (n + 1) (b / 8) := by omega
      rw [← List.replicate_succ, ← hmin]
    · rw [if_neg hb]
      have : b / 8 = 0 := by omega
      simp [this]

/-- The embedded text of the counterexample is exactly 1997 characters. -/
theorem c2_shorten_length :
    (textwrap_shorten c2big 2000 " [...]").length = 1997 := by
  have hnorm : pyNormalize c2big = joinWords (List.replicate 251 "abcdefg") := by
    rw [pyNormalize, c2big_words]
  have hnlen : (pyNormalize c2big).length = 2007 := by
    rw [hnorm]
    have hj := joinWords_rep_length 250
    norm_num at hj
    omega
  have hgt : ¬ (pyNormalize c2big).length ≤ 2000 := by omega
  have h1995 : 2000 + 1 - (" [...]" : String).length = 1995 := rfl
  have hkept : fitWords (pyWords c2big) 1995 = List.replicate 249 "abcdefg" := by
    rw [c2big_words, fitWords_rep_word 251 1995]
    have hmin : min 251 (1995 / 8) = 249 := by omega
    rw [hmin]
  have hne : fitWords (pyWords c2big) 1995 ≠ [] := by
    rw [hkept]
    intro hcon
    have hlen0 := congrArg List.length hcon
    rw [List.length_replicate, List.length_nil] at hlen0
    omega
  have hsh : textwrap_shorten c2big 2000 " [...]" =
      joinWords (fitWords (pyWords c2big) 1995) ++ " [...]" := by
    simp only [textwrap_shorten, if_neg hgt]
    rw [h1995, if_neg hne]
  rw [hsh, String.length_append, hkept]
  have hj : (joinWords (List.replicate 249 "abcdefg")).length = 1991 := by
    have hj0 := joinWords_rep_length 248
    norm_num at hj0
    omega
  have h6 : (" [...]" : String).length = 6 := rfl
  omega

/-- C2, counterexample. The captured output exceeds 2000 characters, yet
the embedded text of the raised Non-Zero-Exit failure is 1997 characters
long placeholder included — not 2000 plus a placeholder — so no split of it
into a 2000-character (or 2000-minus-placeholder) leading segment of the
real output plus placeholder exists. -/
theorem c2_truncation_counterexample :
    (run_command c2args c2world).result =
      Except.error ⟨"RuntimeError",
        nonZeroExitMsg ["tool"] 1
          ("\nstderr:\n" ++ textwrap_shorten (pyStrip c2big) 2000 " [...]")⟩ ∧
    2000 < c2big.length ∧
    (textwrap_shorten (pyStrip c2big) 2000 " [...]").length = 1997 ∧
    ¬ ∃ t : String, textwrap_shorten (pyStrip c2big) 2000 " [...]" = t ++ " [...]" ∧
        (t.length = 2000 ∨ t.length + (" [...]" : String).length = 2000) ∧
        StrStarts t c2big := by
  have hlen : (textwrap_shorten (pyStrip c2big) 2000 " [...]").length = 1997 := by
    rw [c2big_strip]; exact c2_shorten_length
  have hne0 : c2big ≠ "" := by
    intro hcon
    have h2 := congrArg String.data hcon
    rw [c2big_data] at h2
    exact List.noConfusion h2
  have hcd : captureDetail "" c2big =
      "\nstderr:\n" ++ textwrap_shorten (pyStrip c2big) 2000 " [...]" := by
    simp only [captureDetail]
    rw [c2big_strip]
    simp [hne0]
  have hres := run_command_nonzero_case c2args c2world rfl (by decide) (by decide)
  simp only [c2args, c2world] at hres
  rw [hcd] at hres
  refine ⟨hres, by rw [c2big_length]; omega, hlen, ?_⟩
  rintro ⟨t, ht, hl, -⟩
  have h2 : (textwrap_shorten (pyStrip c2big) 2000 " [...]").length =
      t.length + (" [...]" : String).length := by rw [ht, String.length_append]
  have h6 : (" [...]" : String).length = 6 := rfl
  rw [hlen, h6] at h2
  rw [h6] at hl
  omega

/-- Witness for C2 (amended) at the counterexample stream: truncation
happens and the amended description applies. -/
theorem c2_truncation_amended_witness :
    2000 < (pyNormalize (pyStrip c2big)).length ∧
    ((textwrap_shorten (pyStrip c2big) 2000 " [...]").length ≤ 2000 ∧
      (textwrap_shorten (pyStrip c2big) 2000 " [...]" = "[...]" ∨
        ∃ ws, ws ≠ [] ∧ ws <+: pyWords (pyStrip c2big) ∧
          textwrap_shorten (pyStrip c2big) 2000 " [...]" = joinWords ws ++ " [...]")) := by
  have hbig : 2000 < (pyNormalize (pyStrip c2big)).length := by
    rw [c2big_strip, pyNormalize, c2big_words]
    have hj := joinWords_rep_length 250
    norm_num at hj
    omega
  exact ⟨hbig, c2_truncation_amended (pyStrip c2big) hbig⟩
